import Mathlib

/-!
Verification of the AutoFlow orchestrator core (Rust, crates autoflow-core /
autoflow-cli / autoflow-data / autoflow-agents) against its natural-language
specification.

This file shallowly embeds the data model and the operations of the source:

* `SprintStatus`, `WorkflowType`, `Sprint`, `Task`, … mirror
  `crates/autoflow-data/src/sprints.rs` and `tasks.rs`;
* the workflow registry mirrors `crates/autoflow-core/src/workflow.rs`;
* `parse_test_results` / `parse_review_results`, `execute_phase`, `runIter`
  and `runSprint` mirror `crates/autoflow-core/src/orchestrator.rs`;
* the scheduler filters mirror `crates/autoflow-cli/src/commands/start.rs`;
* the YAML-value codec and the file-operation trace of `SprintsYaml::save`
  mirror `crates/autoflow-data/src/sprints.rs` together with the serde
  derive attributes on the data structures;
* `agent_cmd_args` mirrors the subprocess construction in
  `crates/autoflow-agents/src/executor.rs`.

External effects (wall clock, subprocess execution, file system) are made
explicit parameters: agent invocations become an oracle, timestamps a clock
function, file writes a trace of operations.
-/

/-! ## Data model: enums (autoflow-data/src/sprints.rs, tasks.rs) -/

/-- Mirrors Rust enum `SprintStatus` (13 variants). -/
inductive SprintStatus where
  | pending
  | writeUnitTests
  | writeCode
  | codeReview
  | reviewFix
  | runUnitTests
  | unitFix
  | writeE2eTests
  | runE2eTests
  | e2eFix
  | blocked
  | complete
  | done
deriving DecidableEq, Repr

/-- Mirrors Rust enum `WorkflowType` (5 variants, default Implementation). -/
inductive WorkflowType where
  | implementation
  | documentation
  | test
  | infrastructure
  | refactor
deriving DecidableEq, Repr

/-- Mirrors Rust enum `TaskStatus`. -/
inductive TaskStatus where
  | pending
  | inProgress
  | committed
  | reviewed
  | tested
  | done
deriving DecidableEq, Repr

/-- Mirrors Rust enum `Priority`. -/
inductive Priority where
  | critical
  | high
  | medium
  | low
deriving DecidableEq, Repr

/-! ## Data model: structures

Timestamps (`chrono::DateTime<Utc>`) are modelled as opaque strings: the
orchestrator never inspects them, it only stores values obtained from the
clock, and chrono's serde round-trips the stored instant. -/

/-- Opaque model of `chrono::DateTime<Utc>`. -/
abbrev TimeStamp := String

/-- Mirrors Rust struct `TestRequirement`. -/
structure TestRequirement where
  required : Bool
  reason : String
deriving DecidableEq, Repr

/-- Mirrors Rust struct `TestingRequirements` (all fields `serde(default)`). -/
structure TestingRequirements where
  unit_tests : Option TestRequirement
  integration_tests : Option TestRequirement
  e2e_tests : Option TestRequirement
deriving DecidableEq, Repr

/-- Mirrors Rust struct `Task` (autoflow-data/src/tasks.rs); named `AFTask`
because `Task` is taken by the Lean core. The Rust field
`r#type` is called `task_type` here because `type` is reserved in Lean. -/
structure AFTask where
  id : String
  title : String
  description : Option String
  task_type : Option String
  doc_reference : Option String
  acceptance_criteria : List String
  test_specification : Option String
  effort : String
  priority : Priority
  feature : String
  docs : List String
  business_rules : List String
  integration_notes : Option String
  testing : TestingRequirements
  status : TaskStatus
  committed_at : Option TimeStamp
  reviewed_at : Option TimeStamp
  tested_at : Option TimeStamp
  done_at : Option TimeStamp
  git_commit : Option String
deriving DecidableEq, Repr

/-- Mirrors Rust struct `IntegrationPoints`. -/
structure IntegrationPoints where
  modifies : List String
  creates : List String
  tests_existing : List String
  patterns : List String
deriving DecidableEq, Repr

/-- Mirrors Rust struct `Sprint` (autoflow-data/src/sprints.rs).

The final field `uses_blocker_resolver` is Modelled from the spec: the
orchestrator (`sprint.uses_blocker_resolver = true`, orchestrator.rs line 78)
reads and writes this field, but its declaration is not part of the sources
under `src/`; the spec describes it as a "runtime-only `uses_blocker_resolver`
flag" on Sprint, so it is modelled as a non-persisted boolean defaulting to
false. -/
structure Sprint where
  id : Nat
  goal : String
  status : SprintStatus
  workflow_type : WorkflowType
  duration : Option String
  total_effort : String
  max_effort : String
  started : Option TimeStamp
  last_updated : TimeStamp
  completed_at : Option TimeStamp
  deliverables : List String
  tasks : List AFTask
  dependencies : List String
  integration_points : Option IntegrationPoints
  blocked_count : Option Nat
  must_complete_first : Bool
  uses_blocker_resolver : Bool
deriving DecidableEq, Repr

/-- Mirrors `Sprint::is_done`. -/
def Sprint.is_done (s : Sprint) : Bool :=
  s.status == SprintStatus.done

/-- Mirrors Rust struct `ProjectMetadata`. -/
structure ProjectMetadata where
  name : String
  version : String
  description : String
  total_sprints : Nat
  current_sprint : Option Nat
  last_updated : TimeStamp
deriving DecidableEq, Repr

/-- Mirrors Rust struct `SprintsYaml` (the whole persisted document). -/
structure SprintsYaml where
  project : ProjectMetadata
  sprints : List Sprint
deriving DecidableEq, Repr

/-! ## Substring search

Rust `str::contains(&str)` is substring containment; modelled on the
character list of the string. -/

/-- Holds when the needle (first argument) occurs at the start of the
haystack (Rust `str::starts_with` on the remaining haystack). -/
def subAt : List Char → List Char → Bool
  | [], _ => true
  | _ :: _, [] => false
  | a :: as, b :: bs => a == b && subAt as bs

/-- Substring containment on character lists: `containsSub hay needle`. -/
def containsSub (hay needle : List Char) : Bool :=
  match hay with
  | [] => subAt needle []
  | _ :: t => subAt needle hay || containsSub t needle

/-- Model of Rust `String::contains` on our string model. -/
def strContains (s pat : String) : Bool :=
  containsSub s.data pat.data

/-! ## Result parser (orchestrator.rs lines 440-481) -/

/-- Mirrors `parse_test_results`: the `TEST_RESULT: PASSED` check runs first,
then `TEST_RESULT: FAILED`; with no marker the result defaults to passed. -/
def parse_test_results (output : String) : Bool :=
  if strContains output "TEST_RESULT: PASSED" then
    true
  else if strContains output "TEST_RESULT: FAILED" then
    false
  else
    true

/-- Mirrors `parse_review_results`: the `REVIEW_STATUS: PASSED` check runs
first, then `REVIEW_STATUS: FAILED`; with no marker it defaults to passed. -/
def parse_review_results (output : String) : Bool :=
  if strContains output "REVIEW_STATUS: PASSED" then
    true
  else if strContains output "REVIEW_STATUS: FAILED" then
    false
  else
    true

/-! ## Workflow registry (autoflow-core/src/workflow.rs) -/

/-- Mirrors Rust struct `WorkflowPhase`. -/
structure WorkflowPhase where
  status : SprintStatus
  agent : String
  max_turns : Nat
  fix_status : Option SprintStatus
  max_retries : Nat
  requires_validation : Bool
deriving DecidableEq, Repr

/-- Mirrors Rust struct `WorkflowDefinition`. -/
structure WorkflowDefinition where
  workflow_type : WorkflowType
  phases : List WorkflowPhase
deriving DecidableEq, Repr

/-- Mirrors `WorkflowDefinition::get_phase`. -/
def WorkflowDefinition.get_phase (w : WorkflowDefinition) (status : SprintStatus) :
    Option WorkflowPhase :=
  w.phases.find? (fun p => p.status == status)

/-- Mirrors `WorkflowDefinition::next_phase` (strict index + 1). -/
def WorkflowDefinition.next_phase (w : WorkflowDefinition) (current : SprintStatus) :
    Option WorkflowPhase :=
  match w.phases.findIdx? (fun p => p.status == current) with
  | none => none
  | some i => w.phases.get? (i + 1)

/-- Mirrors `WorkflowDefinition::get_fix_phase`. -/
def WorkflowDefinition.get_fix_phase (w : WorkflowDefinition) (status : SprintStatus) :
    Option WorkflowPhase :=
  match w.get_phase status with
  | none => none
  | some phase =>
    match phase.fix_status with
    | none => none
    | some fs => w.get_phase fs

/-- Modelled from the spec: `is_fix_phase(wf, status)` is called by the
orchestrator (orchestrator.rs line 130) but its definition is not among the
sources under `src/`. Per spec section 4.2, `next_phase_skip_fix` skips "any
phase whose status is itself a fix-phase target", so a fix phase is a status
some phase points to through `fix_status`. -/
def WorkflowDefinition.is_fix_phase (w : WorkflowDefinition) (status : SprintStatus) :
    Bool :=
  w.phases.any (fun p => p.fix_status == some status)

/-- Modelled from the spec: `get_validation_phase_for_fix(wf, fix_status)` is
called by the orchestrator (orchestrator.rs line 131) but not defined under
`src/`. Per spec section 4.2 it returns "the phase whose
`fix_status == fix_status`". -/
def WorkflowDefinition.get_validation_phase_for_fix (w : WorkflowDefinition)
    (fix : SprintStatus) : Option WorkflowPhase :=
  w.phases.find? (fun p => p.fix_status == some fix)

/-- Modelled from the spec: `next_phase_skip_fix(wf, status)` is called by the
orchestrator (orchestrator.rs line 142) but not defined under `src/`. Per spec
section 4.2 it advances from the current phase, skipping "any phase whose
status is itself a fix-phase target". -/
def WorkflowDefinition.next_phase_skip_fix (w : WorkflowDefinition)
    (current : SprintStatus) : Option WorkflowPhase :=
  match w.phases.findIdx? (fun p => p.status == current) with
  | none => none
  | some i => (w.phases.drop (i + 1)).find? (fun p => !(w.is_fix_phase p.status))

/-- Mirrors `implementation_workflow()`. -/
def implementation_workflow : WorkflowDefinition where
  workflow_type := WorkflowType.implementation
  phases := [
    ⟨SprintStatus.pending, "none", 0, none, 1, false⟩,
    ⟨SprintStatus.writeUnitTests, "test-writer", 6, none, 1, false⟩,
    ⟨SprintStatus.writeCode, "code-implementer", 10, none, 1, false⟩,
    ⟨SprintStatus.codeReview, "reviewer", 5, some SprintStatus.reviewFix, 5, true⟩,
    ⟨SprintStatus.reviewFix, "review-fixer", 8, none, 5, false⟩,
    ⟨SprintStatus.runUnitTests, "unit-test-runner", 5, some SprintStatus.unitFix, 3, true⟩,
    ⟨SprintStatus.unitFix, "unit-fixer", 8, none, 3, false⟩,
    ⟨SprintStatus.writeE2eTests, "e2e-writer", 6, none, 1, false⟩,
    ⟨SprintStatus.runE2eTests, "e2e-test-runner", 5, some SprintStatus.e2eFix, 3, true⟩,
    ⟨SprintStatus.e2eFix, "e2e-fixer", 10, none, 3, false⟩,
    ⟨SprintStatus.complete, "health-check", 5, none, 1, false⟩,
    ⟨SprintStatus.done, "none", 0, none, 0, false⟩
  ]

/-- Mirrors `documentation_workflow()`. -/
def documentation_workflow : WorkflowDefinition where
  workflow_type := WorkflowType.documentation
  phases := [
    ⟨SprintStatus.pending, "none", 0, none, 1, false⟩,
    ⟨SprintStatus.writeCode, "doc-writer", 8, none, 1, false⟩,
    ⟨SprintStatus.codeReview, "doc-reviewer", 5, some SprintStatus.reviewFix, 3, true⟩,
    ⟨SprintStatus.reviewFix, "doc-fixer", 6, none, 3, false⟩,
    ⟨SprintStatus.complete, "health-check", 5, none, 1, false⟩,
    ⟨SprintStatus.done, "none", 0, none, 0, false⟩
  ]

/-- Mirrors `test_workflow()`. -/
def test_workflow : WorkflowDefinition where
  workflow_type := WorkflowType.test
  phases := [
    ⟨SprintStatus.pending, "none", 0, none, 1, false⟩,
    ⟨SprintStatus.writeCode, "test-implementer", 8, none, 1, false⟩,
    ⟨SprintStatus.codeReview, "reviewer", 5, some SprintStatus.reviewFix, 3, true⟩,
    ⟨SprintStatus.reviewFix, "review-fixer", 6, none, 3, false⟩,
    ⟨SprintStatus.runUnitTests, "unit-test-runner", 5, some SprintStatus.unitFix, 3, true⟩,
    ⟨SprintStatus.unitFix, "unit-fixer", 8, none, 3, false⟩,
    ⟨SprintStatus.complete, "health-check", 5, none, 1, false⟩,
    ⟨SprintStatus.done, "none", 0, none, 0, false⟩
  ]

/-- Mirrors `infrastructure_workflow()`. -/
def infrastructure_workflow : WorkflowDefinition where
  workflow_type := WorkflowType.infrastructure
  phases := [
    ⟨SprintStatus.pending, "none", 0, none, 1, false⟩,
    ⟨SprintStatus.writeCode, "infra-implementer", 10, none, 1, false⟩,
    ⟨SprintStatus.codeReview, "reviewer", 5, some SprintStatus.reviewFix, 5, true⟩,
    ⟨SprintStatus.reviewFix, "review-fixer", 8, none, 5, false⟩,
    ⟨SprintStatus.writeE2eTests, "integration-test-writer", 6, none, 1, false⟩,
    ⟨SprintStatus.runE2eTests, "integration-test-runner", 5, some SprintStatus.e2eFix, 3, true⟩,
    ⟨SprintStatus.e2eFix, "integration-fixer", 10, none, 3, false⟩,
    ⟨SprintStatus.complete, "health-check", 5, none, 1, false⟩,
    ⟨SprintStatus.done, "none", 0, none, 0, false⟩
  ]

/-- Mirrors `refactor_workflow()`. -/
def refactor_workflow : WorkflowDefinition where
  workflow_type := WorkflowType.refactor
  phases := [
    ⟨SprintStatus.pending, "none", 0, none, 1, false⟩,
    ⟨SprintStatus.writeUnitTests, "test-verifier", 5, none, 1, false⟩,
    ⟨SprintStatus.writeCode, "refactor-implementer", 10, none, 1, false⟩,
    ⟨SprintStatus.codeReview, "reviewer", 5, some SprintStatus.reviewFix, 5, true⟩,
    ⟨SprintStatus.reviewFix, "review-fixer", 8, none, 5, false⟩,
    ⟨SprintStatus.runUnitTests, "unit-test-runner", 5, some SprintStatus.unitFix, 3, true⟩,
    ⟨SprintStatus.unitFix, "unit-fixer", 8, none, 3, false⟩,
    ⟨SprintStatus.complete, "health-check", 5, none, 1, false⟩,
    ⟨SprintStatus.done, "none", 0, none, 0, false⟩
  ]

/-- Mirrors `get_workflow_definition`. -/
def get_workflow_definition : WorkflowType → WorkflowDefinition
  | WorkflowType.implementation => implementation_workflow
  | WorkflowType.documentation => documentation_workflow
  | WorkflowType.test => test_workflow
  | WorkflowType.infrastructure => infrastructure_workflow
  | WorkflowType.refactor => refactor_workflow

/-! ## Orchestrator (autoflow-core/src/orchestrator.rs)

`execute_agent` (an external subprocess) is modelled as an oracle indexed by
the iteration number and the agent name; `Utc::now()` as a clock indexed by
the iteration number. Git commits (`commit_project_changes`) only touch the
repository working tree, never the sprint record, and their errors are
swallowed with a warning; they are omitted from the state. -/

/-- The relevant variants of Rust enum `AutoFlowError`. -/
inductive AFError where
  | sprintBlocked (id : Nat) (msg : String)
  | maxIterationsExceeded (n : Nat)
  | agentExecutionFailed (agent : String) (msg : String)
  | validationError (msg : String)
  | persistenceFailed (msg : String)
deriving DecidableEq, Repr

/-- Mirrors the fields of `AgentResult` the orchestrator reads. -/
structure AgentRes where
  success : Bool
  output : String
  error : Option String
deriving DecidableEq, Repr

/-- Debug rendering of a status, as Rust `format!` with the derived `Debug`
prints the variant name. -/
def statusDebug : SprintStatus → String
  | SprintStatus.pending => "Pending"
  | SprintStatus.writeUnitTests => "WriteUnitTests"
  | SprintStatus.writeCode => "WriteCode"
  | SprintStatus.codeReview => "CodeReview"
  | SprintStatus.reviewFix => "ReviewFix"
  | SprintStatus.runUnitTests => "RunUnitTests"
  | SprintStatus.unitFix => "UnitFix"
  | SprintStatus.writeE2eTests => "WriteE2eTests"
  | SprintStatus.runE2eTests => "RunE2eTests"
  | SprintStatus.e2eFix => "E2eFix"
  | SprintStatus.blocked => "Blocked"
  | SprintStatus.complete => "Complete"
  | SprintStatus.done => "Done"

/-- Debug rendering of a workflow type (derived `Debug` variant name). -/
def workflowDebug : WorkflowType → String
  | WorkflowType.implementation => "Implementation"
  | WorkflowType.documentation => "Documentation"
  | WorkflowType.test => "Test"
  | WorkflowType.infrastructure => "Infrastructure"
  | WorkflowType.refactor => "Refactor"

/-- The orchestrator configuration plus its external collaborators: the agent
oracle (iteration, agent name ↦ result of `execute_agent`), the wall clock,
and the optional save callback (`with_save_callback`). -/
structure OrchestratorEnv where
  max_iterations : Nat
  agents : Nat → String → Except String AgentRes
  clock : Nat → TimeStamp
  saveFn : Option (Sprint → Except AFError Unit)

/-- Mirrors `Orchestrator::execute_phase` (orchestrator.rs lines 279-396).
Returns `Ok true` to advance, `Ok false` to retry, an error when the phase
lookup fails or `execute_agent` itself fails. The context builders
(`build_test_runner_context` etc.) shape only the oracle's input and are
absorbed into the oracle. -/
def execute_phase (env : OrchestratorEnv) (iter : Nat) (sprint : Sprint) :
    Except AFError Bool :=
  let workflow := get_workflow_definition sprint.workflow_type
  match workflow.get_phase sprint.status with
  | none =>
    Except.error (AFError.validationError
      ("No phase definition for status " ++ statusDebug sprint.status ++
       " in workflow " ++ workflowDebug sprint.workflow_type))
  | some phase =>
    if sprint.status = SprintStatus.pending then
      Except.ok true
    else if phase.agent = "none" then
      Except.ok true
    else
      match env.agents iter phase.agent with
      | Except.error e =>
        Except.error (AFError.agentExecutionFailed phase.agent e)
      | Except.ok result =>
        if result.success then
          Except.ok (match sprint.status with
            | SprintStatus.runUnitTests | SprintStatus.runE2eTests =>
              parse_test_results result.output
            | SprintStatus.codeReview =>
              parse_review_results result.output
            | _ => true)
        else
          Except.ok false

/-- Mirrors `Orchestrator::run_blocker_resolver` (orchestrator.rs lines
410-432). -/
def run_blocker_resolver (env : OrchestratorEnv) (iter : Nat) :
    Except AFError String :=
  match env.agents iter "blocker-resolver" with
  | Except.error e =>
    Except.error (AFError.agentExecutionFailed "blocker-resolver" e)
  | Except.ok result =>
    if result.success then
      Except.ok result.output
    else
      Except.error (AFError.agentExecutionFailed "blocker-resolver"
        (result.error.getD "Unknown error"))

/-- The per-status retry-counter map (`HashMap<SprintStatus, u32>` with a
default of 0, as `entry(...).or_insert(0)` produces). -/
abbrev RetryCounts := SprintStatus → Nat

/-- Point update of the retry-counter map. -/
def updateRc (rc : RetryCounts) (st : SprintStatus) (n : Nat) : RetryCounts :=
  fun s => if s = st then n else rc s

/-- Outcome of one iteration of the `run_sprint` while-loop: either continue
with updated state, or return early with an error (the sprint as mutated so
far is carried alongside, since Rust mutates it in place). -/
inductive IterOut where
  | next (sprint : Sprint) (rc : RetryCounts)
  | halt (e : AFError) (sprint : Sprint)

/-- The sprint as left behind by an iteration, whichever way it ended. -/
def IterOut.sprint : IterOut → Sprint
  | IterOut.next s _ => s
  | IterOut.halt _ s => s

/-- The end-of-iteration persistence step (`save_fn(sprint)?`,
orchestrator.rs lines 258-261): a callback error propagates out of
`run_sprint` through the `?` operator. -/
def saveStep (env : OrchestratorEnv) (sprint : Sprint) (rc : RetryCounts) :
    IterOut :=
  match env.saveFn with
  | none => IterOut.next sprint rc
  | some f =>
    match f sprint with
    | Except.ok _ => IterOut.next sprint rc
    | Except.error e => IterOut.halt e sprint

/-- One iteration of the `run_sprint` while-loop body (orchestrator.rs lines
55-262), entered with the already-incremented iteration counter `iter`. -/
def runIter (env : OrchestratorEnv) (iter : Nat) (sprint : Sprint)
    (rc : RetryCounts) : IterOut :=
  if sprint.status = SprintStatus.blocked then
    -- BLOCKED branch (lines 66-112)
    match run_blocker_resolver env iter with
    | Except.ok _ =>
      let s1 : Sprint :=
        { sprint with
          uses_blocker_resolver := true
          status := SprintStatus.runUnitTests
          blocked_count := some 0
          last_updated := env.clock iter }
      -- `save_fn(sprint)?` before `continue` (lines 98-100), the same
      -- callback invocation as at the end of an iteration
      saveStep env s1 rc
    | Except.error e =>
      (match e with
       | AFError.agentExecutionFailed _ msg =>
         IterOut.halt (AFError.sprintBlocked sprint.id
           ("Blocker-resolver failed: " ++ msg)) sprint
       | e' => IterOut.halt e' sprint)
  else
    match execute_phase env iter sprint with
    | Except.ok true =>
      -- phase succeeded: reset this status's counter, advance via workflow
      let rc1 := updateRc rc sprint.status 0
      let workflow := get_workflow_definition sprint.workflow_type
      let next_status : Option SprintStatus :=
        if workflow.is_fix_phase sprint.status then
          (workflow.get_validation_phase_for_fix sprint.status).map
            (fun p => p.status)
        else
          (workflow.next_phase_skip_fix sprint.status).map (fun p => p.status)
      let s1 : Sprint :=
        match next_status with
        | some st => { sprint with status := st, last_updated := env.clock iter }
        | none => sprint
      saveStep env s1 rc1
    | Except.ok false =>
      -- phase needs retry (lines 177-233)
      let count := rc sprint.status + 1
      let rc1 := updateRc rc sprint.status count
      let workflow := get_workflow_definition sprint.workflow_type
      let max_retries :=
        ((workflow.get_phase sprint.status).map (fun p => p.max_retries)).getD 1
      let s1 : Sprint :=
        if count ≥ max_retries then
          { sprint with status := SprintStatus.blocked,
                        blocked_count := some count,
                        last_updated := env.clock iter }
        else if sprint.uses_blocker_resolver then
          { sprint with status := SprintStatus.blocked,
                        blocked_count := some count,
                        last_updated := env.clock iter }
        else
          match workflow.get_fix_phase sprint.status with
          | some fix_phase =>
            { sprint with status := fix_phase.status,
                          last_updated := env.clock iter }
          | none => sprint
      saveStep env s1 rc1
    | Except.error _ =>
      -- phase failed with an error (lines 235-255): count a retry and
      -- block when the ceiling is reached; the error itself is swallowed
      let count := rc sprint.status + 1
      let rc1 := updateRc rc sprint.status count
      let workflow := get_workflow_definition sprint.workflow_type
      let max_retries :=
        ((workflow.get_phase sprint.status).map (fun p => p.max_retries)).getD 1
      let s1 : Sprint :=
        if count ≥ max_retries then
          { sprint with status := SprintStatus.blocked,
                        blocked_count := some count,
                        last_updated := env.clock iter }
        else
          sprint
      saveStep env s1 rc1

/-- Result of `run_sprint`: the returned `Result<()>`, the sprint as finally
mutated, and the trace of statuses observed at the head of each executed loop
iteration (the per-iteration `tracing::info!` log of line 58). -/
structure RunOut where
  result : Except AFError Unit
  sprint : Sprint
  trace : List SprintStatus
deriving Repr

/-- The checks after the while-loop (orchestrator.rs lines 264-272): report
iteration exhaustion, otherwise stamp `completed_at` on a done sprint. -/
def postLoop (env : OrchestratorEnv) (iter : Nat) (sprint : Sprint)
    (trace : List SprintStatus) : RunOut :=
  if iter ≥ env.max_iterations ∧ sprint.is_done = false then
    ⟨Except.error (AFError.maxIterationsExceeded env.max_iterations), sprint, trace⟩
  else
    let s1 :=
      if sprint.is_done ∧ sprint.completed_at = none then
        { sprint with completed_at := some (env.clock iter) }
      else sprint
    ⟨Except.ok (), s1, trace⟩

/-- The `run_sprint` while-loop, by recursion on the remaining iteration
budget (`fuel = max_iterations - iter`, so `fuel = 0` iff the loop guard
`iteration < max_iterations` fails). -/
def runAux (env : OrchestratorEnv) : Nat → Nat → Sprint → RetryCounts →
    List SprintStatus → RunOut
  | 0, iter, sprint, _, trace => postLoop env iter sprint trace
  | fuel + 1, iter, sprint, rc, trace =>
    if sprint.is_done then
      postLoop env iter sprint trace
    else
      let iter1 := iter + 1
      let trace1 := trace ++ [sprint.status]
      match runIter env iter1 sprint rc with
      | IterOut.next s1 rc1 => runAux env fuel iter1 s1 rc1 trace1
      | IterOut.halt e s1 => ⟨Except.error e, s1, trace1⟩

/-- Mirrors `Orchestrator::run_sprint` (orchestrator.rs lines 46-275). -/
def runSprint (env : OrchestratorEnv) (sprint : Sprint) : RunOut :=
  let s0 :=
    if sprint.started = none then
      { sprint with started := some (env.clock 0) }
    else sprint
  runAux env env.max_iterations 0 s0 (fun _ => 0) []

/-! ## Cross-sprint scheduler filters (autoflow-cli/src/commands/start.rs)

The `start` command selects sprint indices from the loaded document. Both the
initial selection pass (lines 579-635) and the continuous-mode re-evaluation
(lines 800-838) are embedded; `iter().enumerate()` becomes `List.enum`. -/

/-- The dependency check shared by both filters (start.rs lines 614-624 and
825-835): every id in `dependencies` that names an existing sprint must name
a `DONE` one; an id naming no sprint is allowed (`unwrap_or(true)`). -/
def deps_ok (l : List Sprint) (s : Sprint) : Bool :=
  s.dependencies.all (fun dep =>
    ((l.find? (fun other => toString other.id == dep)).map
      (fun d => d.status == SprintStatus.done)).getD true)

/-- Mirrors the `has_incomplete_critical` check of the continuous-mode filter
(start.rs lines 816-819). -/
def has_incomplete_critical (l : List Sprint) : Bool :=
  l.any (fun other =>
    other.must_complete_first && !(other.status == SprintStatus.done))

/-- The initial runnable filter (start.rs lines 601-627): status not `DONE`
and dependencies satisfied. It contains no `must_complete_first` gate. -/
def initial_runnable (l : List Sprint) : List Nat :=
  (l.enum.filter (fun p =>
    !(p.2.status == SprintStatus.done) && deps_ok l p.2)).map (fun p => p.1)

/-- The blocked-critical preemption of the initial pass (start.rs lines
583-598): the first sprint with `must_complete_first` and status `BLOCKED`. -/
def blocked_critical (l : List Sprint) : Option (Nat × Sprint) :=
  l.enum.find? (fun p =>
    p.2.must_complete_first && p.2.status == SprintStatus.blocked)

/-- The initial selection pass without a `--sprint` flag (start.rs lines
579-636): run only a blocked critical sprint if one exists, otherwise the
initial runnable filter. -/
def initial_selection (l : List Sprint) : List Nat :=
  match blocked_critical l with
  | some p => [p.1]
  | none => initial_runnable l

/-- The continuous-mode runnable filter (start.rs lines 800-838): status not
`DONE`; while some `must_complete_first` sprint is not `DONE` only critical
sprints pass; dependencies satisfied. -/
def continuous_runnable (l : List Sprint) : List Nat :=
  (l.enum.filter (fun p =>
    !(p.2.status == SprintStatus.done) &&
    !(has_incomplete_critical l && !p.2.must_complete_first) &&
    deps_ok l p.2)).map (fun p => p.1)

/-! ## Agent supervisor invocation (autoflow-agents/src/executor.rs)

The subprocess command line built by `execute_agent` (lines 185-210).
The Rust parameter is spelled `_max_turns` and is read nowhere in the
function body. -/

/-- The fields of the loaded agent definition the command construction uses. -/
structure AgentDefM where
  model : String
  tools : List String
deriving DecidableEq, Repr

/-- Mirrors the argument list handed to `Command::new("claude")` in
`execute_agent` (executor.rs lines 185-210): base flags, `--allowedTools`
when the agent declares tools, stream flags when live logging is active. -/
def agent_cmd_args (ad : AgentDefM) (live : Bool) (_max_turns : Nat) :
    List String :=
  (["--print", "--output-format", if live then "stream-json" else "text",
    "--model", ad.model, "--dangerously-skip-permissions"] ++
   (if ad.tools.isEmpty then [] else
    ["--allowedTools", String.intercalate " " ad.tools])) ++
  (if live then ["--verbose", "--include-partial-messages"] else [])

/-! ## Persistence codec (autoflow-data/src/sprints.rs, tasks.rs)

`SprintsYaml::save` runs `serde_yaml::to_string`, `SprintsYaml::load` runs
`serde_yaml::from_str`. Both factor through the YAML value tree
(`serde_yaml::Value`); the textual layer is injective on trees, so the codec
is embedded at the tree level. Encoding follows the serde derives: every
declared field is emitted in declaration order, `Option::None` as null;
decoding is key-driven, with `#[serde(default)]` fields and `Option` fields
tolerating a missing key. -/

/-- The YAML value tree (`serde_yaml::Value`, restricted to the shapes this
schema produces). -/
inductive YamlValue where
  | null
  | bool (b : Bool)
  | nat (n : Nat)
  | str (s : String)
  | seq (items : List YamlValue)
  | map (entries : List (String × YamlValue))

/-- Key lookup in a YAML mapping. -/
def lookupKey (k : String) : List (String × YamlValue) → Option YamlValue
  | [] => none
  | (k1, v) :: rest => if k1 = k then some v else lookupKey k rest

/-- Decode a YAML string. -/
def decStr : YamlValue → Option String
  | YamlValue.str s => some s
  | _ => none

/-- Decode a YAML number as an unsigned integer (`u32`). -/
def decNat : YamlValue → Option Nat
  | YamlValue.nat n => some n
  | _ => none

/-- Decode a YAML boolean. -/
def decBool : YamlValue → Option Bool
  | YamlValue.bool b => some b
  | _ => none

/-- Decode `Option<T>`: null is `None`, anything else must decode as `T`. -/
def decOpt (f : YamlValue → Option α) : YamlValue → Option (Option α)
  | YamlValue.null => some none
  | v => (f v).map some

/-- Encode `Option<T>`: `None` as null. -/
def encOpt (f : α → YamlValue) : Option α → YamlValue
  | none => YamlValue.null
  | some a => f a

/-- Decode each element of a YAML sequence. -/
def decListAux (f : YamlValue → Option α) : List YamlValue → Option (List α)
  | [] => some []
  | x :: xs =>
    match f x with
    | none => none
    | some a => (decListAux f xs).map (fun l => a :: l)

/-- Decode `Vec<T>` from a YAML sequence. -/
def decList (f : YamlValue → Option α) : YamlValue → Option (List α)
  | YamlValue.seq xs => decListAux f xs
  | _ => none

/-- A required struct field: the key must be present and decode. -/
def reqField (m : List (String × YamlValue)) (k : String)
    (f : YamlValue → Option α) : Option α :=
  (lookupKey k m).bind f

/-- A `#[serde(default)]` struct field: a missing key yields the default. -/
def dfltField (m : List (String × YamlValue)) (k : String)
    (f : YamlValue → Option α) (dflt : α) : Option α :=
  match lookupKey k m with
  | none => some dflt
  | some v => f v

/-- An `Option<T>` struct field: serde lets the key be missing (`None`), and
null also decodes to `None`. -/
def optField (m : List (String × YamlValue)) (k : String)
    (f : YamlValue → Option α) : Option (Option α) :=
  match lookupKey k m with
  | none => some none
  | some v => decOpt f v

/-- Serde names for `SprintStatus` (`rename_all = "SCREAMING_SNAKE_CASE"`). -/
def encStatus : SprintStatus → YamlValue
  | SprintStatus.pending => YamlValue.str "PENDING"
  | SprintStatus.writeUnitTests => YamlValue.str "WRITE_UNIT_TESTS"
  | SprintStatus.writeCode => YamlValue.str "WRITE_CODE"
  | SprintStatus.codeReview => YamlValue.str "CODE_REVIEW"
  | SprintStatus.reviewFix => YamlValue.str "REVIEW_FIX"
  | SprintStatus.runUnitTests => YamlValue.str "RUN_UNIT_TESTS"
  | SprintStatus.unitFix => YamlValue.str "UNIT_FIX"
  | SprintStatus.writeE2eTests => YamlValue.str "WRITE_E2E_TESTS"
  | SprintStatus.runE2eTests => YamlValue.str "RUN_E2E_TESTS"
  | SprintStatus.e2eFix => YamlValue.str "E2E_FIX"
  | SprintStatus.blocked => YamlValue.str "BLOCKED"
  | SprintStatus.complete => YamlValue.str "COMPLETE"
  | SprintStatus.done => YamlValue.str "DONE"

/-- Inverse of `encStatus`. -/
def decStatus : YamlValue → Option SprintStatus
  | YamlValue.str "PENDING" => some SprintStatus.pending
  | YamlValue.str "WRITE_UNIT_TESTS" => some SprintStatus.writeUnitTests
  | YamlValue.str "WRITE_CODE" => some SprintStatus.writeCode
  | YamlValue.str "CODE_REVIEW" => some SprintStatus.codeReview
  | YamlValue.str "REVIEW_FIX" => some SprintStatus.reviewFix
  | YamlValue.str "RUN_UNIT_TESTS" => some SprintStatus.runUnitTests
  | YamlValue.str "UNIT_FIX" => some SprintStatus.unitFix
  | YamlValue.str "WRITE_E2E_TESTS" => some SprintStatus.writeE2eTests
  | YamlValue.str "RUN_E2E_TESTS" => some SprintStatus.runE2eTests
  | YamlValue.str "E2E_FIX" => some SprintStatus.e2eFix
  | YamlValue.str "BLOCKED" => some SprintStatus.blocked
  | YamlValue.str "COMPLETE" => some SprintStatus.complete
  | YamlValue.str "DONE" => some SprintStatus.done
  | _ => none

/-- Serde names for `WorkflowType`. -/
def encWorkflowType : WorkflowType → YamlValue
  | WorkflowType.implementation => YamlValue.str "IMPLEMENTATION"
  | WorkflowType.documentation => YamlValue.str "DOCUMENTATION"
  | WorkflowType.test => YamlValue.str "TEST"
  | WorkflowType.infrastructure => YamlValue.str "INFRASTRUCTURE"
  | WorkflowType.refactor => YamlValue.str "REFACTOR"

/-- Inverse of `encWorkflowType`. -/
def decWorkflowType : YamlValue → Option WorkflowType
  | YamlValue.str "IMPLEMENTATION" => some WorkflowType.implementation
  | YamlValue.str "DOCUMENTATION" => some WorkflowType.documentation
  | YamlValue.str "TEST" => some WorkflowType.test
  | YamlValue.str "INFRASTRUCTURE" => some WorkflowType.infrastructure
  | YamlValue.str "REFACTOR" => some WorkflowType.refactor
  | _ => none

/-- Serde names for `TaskStatus`. -/
def encTaskStatus : TaskStatus → YamlValue
  | TaskStatus.pending => YamlValue.str "PENDING"
  | TaskStatus.inProgress => YamlValue.str "IN_PROGRESS"
  | TaskStatus.committed => YamlValue.str "COMMITTED"
  | TaskStatus.reviewed => YamlValue.str "REVIEWED"
  | TaskStatus.tested => YamlValue.str "TESTED"
  | TaskStatus.done => YamlValue.str "DONE"

/-- Inverse of `encTaskStatus`. -/
def decTaskStatus : YamlValue → Option TaskStatus
  | YamlValue.str "PENDING" => some TaskStatus.pending
  | YamlValue.str "IN_PROGRESS" => some TaskStatus.inProgress
  | YamlValue.str "COMMITTED" => some TaskStatus.committed
  | YamlValue.str "REVIEWED" => some TaskStatus.reviewed
  | YamlValue.str "TESTED" => some TaskStatus.tested
  | YamlValue.str "DONE" => some TaskStatus.done
  | _ => none

/-- Serde names for `Priority`. -/
def encPriority : Priority → YamlValue
  | Priority.critical => YamlValue.str "CRITICAL"
  | Priority.high => YamlValue.str "HIGH"
  | Priority.medium => YamlValue.str "MEDIUM"
  | Priority.low => YamlValue.str "LOW"

/-- Inverse of `encPriority`. -/
def decPriority : YamlValue → Option Priority
  | YamlValue.str "CRITICAL" => some Priority.critical
  | YamlValue.str "HIGH" => some Priority.high
  | YamlValue.str "MEDIUM" => some Priority.medium
  | YamlValue.str "LOW" => some Priority.low
  | _ => none

/-- Encode `TestRequirement`. -/
def encTestRequirement (t : TestRequirement) : YamlValue :=
  YamlValue.map [("required", YamlValue.bool t.required),
                 ("reason", YamlValue.str t.reason)]

/-- Decode `TestRequirement` (both fields required). -/
def decTestRequirement : YamlValue → Option TestRequirement
  | YamlValue.map m =>
    match reqField m "required" decBool with
    | none => none
    | some required =>
    match reqField m "reason" decStr with
    | none => none
    | some reason =>
    some ⟨required, reason⟩
  | _ => none

/-- Encode `TestingRequirements`. -/
def encTesting (t : TestingRequirements) : YamlValue :=
  YamlValue.map [("unit_tests", encOpt encTestRequirement t.unit_tests),
                 ("integration_tests", encOpt encTestRequirement t.integration_tests),
                 ("e2e_tests", encOpt encTestRequirement t.e2e_tests)]

/-- Decode `TestingRequirements` (all fields `serde(default)` options). -/
def decTesting : YamlValue → Option TestingRequirements
  | YamlValue.map m =>
    match optField m "unit_tests" decTestRequirement with
    | none => none
    | some ut =>
    match optField m "integration_tests" decTestRequirement with
    | none => none
    | some it =>
    match optField m "e2e_tests" decTestRequirement with
    | none => none
    | some et =>
    some ⟨ut, it, et⟩
  | _ => none

/-- Encode `IntegrationPoints`. -/
def encIntegrationPoints (p : IntegrationPoints) : YamlValue :=
  YamlValue.map [("modifies", YamlValue.seq (p.modifies.map YamlValue.str)),
                 ("creates", YamlValue.seq (p.creates.map YamlValue.str)),
                 ("tests_existing", YamlValue.seq (p.tests_existing.map YamlValue.str)),
                 ("patterns", YamlValue.seq (p.patterns.map YamlValue.str))]

/-- Decode `IntegrationPoints` (all fields `serde(default)` vectors). -/
def decIntegrationPoints : YamlValue → Option IntegrationPoints
  | YamlValue.map m =>
    match dfltField m "modifies" (decList decStr) [] with
    | none => none
    | some mo =>
    match dfltField m "creates" (decList decStr) [] with
    | none => none
    | some cr =>
    match dfltField m "tests_existing" (decList decStr) [] with
    | none => none
    | some te =>
    match dfltField m "patterns" (decList decStr) [] with
    | none => none
    | some pa =>
    some ⟨mo, cr, te, pa⟩
  | _ => none

/-- Encode `Task` with every field in declaration order. -/
def encTask (t : AFTask) : YamlValue :=
  YamlValue.map [
    ("id", YamlValue.str t.id),
    ("title", YamlValue.str t.title),
    ("description", encOpt YamlValue.str t.description),
    ("type", encOpt YamlValue.str t.task_type),
    ("doc_reference", encOpt YamlValue.str t.doc_reference),
    ("acceptance_criteria", YamlValue.seq (t.acceptance_criteria.map YamlValue.str)),
    ("test_specification", encOpt YamlValue.str t.test_specification),
    ("effort", YamlValue.str t.effort),
    ("priority", encPriority t.priority),
    ("feature", YamlValue.str t.feature),
    ("docs", YamlValue.seq (t.docs.map YamlValue.str)),
    ("business_rules", YamlValue.seq (t.business_rules.map YamlValue.str)),
    ("integration_notes", encOpt YamlValue.str t.integration_notes),
    ("testing", encTesting t.testing),
    ("status", encTaskStatus t.status),
    ("committed_at", encOpt YamlValue.str t.committed_at),
    ("reviewed_at", encOpt YamlValue.str t.reviewed_at),
    ("tested_at", encOpt YamlValue.str t.tested_at),
    ("done_at", encOpt YamlValue.str t.done_at),
    ("git_commit", encOpt YamlValue.str t.git_commit)]

/-- Decode `Task`. The Rust default for a missing `id` draws a fresh name
from a process-global counter (`generate_task_id`); a fixed placeholder
stands in for it here, which no saved document can observe because `save`
always emits the field. -/
def decTask : YamlValue → Option AFTask
  | YamlValue.map m =>
    match dfltField m "id" decStr "task-1" with
    | none => none
    | some id =>
    match reqField m "title" decStr with
    | none => none
    | some title =>
    match optField m "description" decStr with
    | none => none
    | some description =>
    match optField m "type" decStr with
    | none => none
    | some ttype =>
    match optField m "doc_reference" decStr with
    | none => none
    | some doc_reference =>
    match dfltField m "acceptance_criteria" (decList decStr) [] with
    | none => none
    | some acceptance_criteria =>
    match optField m "test_specification" decStr with
    | none => none
    | some test_specification =>
    match dfltField m "effort" decStr "4h" with
    | none => none
    | some effort =>
    match dfltField m "priority" decPriority Priority.medium with
    | none => none
    | some priority =>
    match dfltField m "feature" decStr "core" with
    | none => none
    | some feature =>
    match dfltField m "docs" (decList decStr) [] with
    | none => none
    | some docs =>
    match dfltField m "business_rules" (decList decStr) [] with
    | none => none
    | some business_rules =>
    match optField m "integration_notes" decStr with
    | none => none
    | some integration_notes =>
    match dfltField m "testing" decTesting ⟨none, none, none⟩ with
    | none => none
    | some testing =>
    match dfltField m "status" decTaskStatus TaskStatus.pending with
    | none => none
    | some status =>
    match optField m "committed_at" decStr with
    | none => none
    | some committed_at =>
    match optField m "reviewed_at" decStr with
    | none => none
    | some reviewed_at =>
    match optField m "tested_at" decStr with
    | none => none
    | some tested_at =>
    match optField m "done_at" decStr with
    | none => none
    | some done_at =>
    match optField m "git_commit" decStr with
    | none => none
    | some git_commit =>
    some ⟨id, title, description, ttype, doc_reference, acceptance_criteria,
          test_specification, effort, priority, feature, docs, business_rules,
          integration_notes, testing, status, committed_at, reviewed_at,
          tested_at, done_at, git_commit⟩
  | _ => none

/-- Encode `Sprint`. The runtime-only `uses_blocker_resolver` flag is not
persisted, matching its absence from the serde schema. -/
def encSprint (s : Sprint) : YamlValue :=
  YamlValue.map [
    ("id", YamlValue.nat s.id),
    ("goal", YamlValue.str s.goal),
    ("status", encStatus s.status),
    ("workflow_type", encWorkflowType s.workflow_type),
    ("duration", encOpt YamlValue.str s.duration),
    ("total_effort", YamlValue.str s.total_effort),
    ("max_effort", YamlValue.str s.max_effort),
    ("started", encOpt YamlValue.str s.started),
    ("last_updated", YamlValue.str s.last_updated),
    ("completed_at", encOpt YamlValue.str s.completed_at),
    ("deliverables", YamlValue.seq (s.deliverables.map YamlValue.str)),
    ("tasks", YamlValue.seq (s.tasks.map encTask)),
    ("dependencies", YamlValue.seq (s.dependencies.map YamlValue.str)),
    ("integration_points", encOpt encIntegrationPoints s.integration_points),
    ("blocked_count", encOpt YamlValue.nat s.blocked_count),
    ("must_complete_first", YamlValue.bool s.must_complete_first)]

/-- Decode `Sprint`; the runtime-only flag comes back as its default. -/
def decSprint : YamlValue → Option Sprint
  | YamlValue.map m =>
    match reqField m "id" decNat with
    | none => none
    | some id =>
    match reqField m "goal" decStr with
    | none => none
    | some goal =>
    match reqField m "status" decStatus with
    | none => none
    | some status =>
    match dfltField m "workflow_type" decWorkflowType WorkflowType.implementation with
    | none => none
    | some workflow_type =>
    match optField m "duration" decStr with
    | none => none
    | some duration =>
    match reqField m "total_effort" decStr with
    | none => none
    | some total_effort =>
    match reqField m "max_effort" decStr with
    | none => none
    | some max_effort =>
    match optField m "started" decStr with
    | none => none
    | some started =>
    match reqField m "last_updated" decStr with
    | none => none
    | some last_updated =>
    match optField m "completed_at" decStr with
    | none => none
    | some completed_at =>
    match reqField m "deliverables" (decList decStr) with
    | none => none
    | some deliverables =>
    match reqField m "tasks" (decList decTask) with
    | none => none
    | some tasks =>
    match dfltField m "dependencies" (decList decStr) [] with
    | none => none
    | some dependencies =>
    match optField m "integration_points" decIntegrationPoints with
    | none => none
    | some integration_points =>
    match optField m "blocked_count" decNat with
    | none => none
    | some blocked_count =>
    match dfltField m "must_complete_first" decBool false with
    | none => none
    | some must_complete_first =>
    some ⟨id, goal, status, workflow_type, duration, total_effort, max_effort,
          started, last_updated, completed_at, deliverables, tasks,
          dependencies, integration_points, blocked_count,
          must_complete_first, false⟩
  | _ => none

/-- Encode `ProjectMetadata`. -/
def encProject (p : ProjectMetadata) : YamlValue :=
  YamlValue.map [
    ("name", YamlValue.str p.name),
    ("version", YamlValue.str p.version),
    ("description", YamlValue.str p.description),
    ("total_sprints", YamlValue.nat p.total_sprints),
    ("current_sprint", encOpt YamlValue.nat p.current_sprint),
    ("last_updated", YamlValue.str p.last_updated)]

/-- Decode `ProjectMetadata` (`version` and `description` carry serde
defaults). -/
def decProject : YamlValue → Option ProjectMetadata
  | YamlValue.map m =>
    match reqField m "name" decStr with
    | none => none
    | some name =>
    match dfltField m "version" decStr "0.1.0" with
    | none => none
    | some version =>
    match dfltField m "description" decStr "AutoFlow Project" with
    | none => none
    | some description =>
    match reqField m "total_sprints" decNat with
    | none => none
    | some total_sprints =>
    match optField m "current_sprint" decNat with
    | none => none
    | some current_sprint =>
    match reqField m "last_updated" decStr with
    | none => none
    | some last_updated =>
    some ⟨name, version, description, total_sprints, current_sprint,
          last_updated⟩
  | _ => none

/-- Encode the whole document: `serde_yaml::to_string` up to text layout. -/
def encDoc (d : SprintsYaml) : YamlValue :=
  YamlValue.map [("project", encProject d.project),
                 ("sprints", YamlValue.seq (d.sprints.map encSprint))]

/-- Decode the whole document: `serde_yaml::from_str` up to text layout. -/
def decDoc : YamlValue → Option SprintsYaml
  | YamlValue.map m =>
    match reqField m "project" decProject with
    | none => none
    | some project =>
    match reqField m "sprints" (decList decSprint) with
    | none => none
    | some sprints =>
    some ⟨project, sprints⟩
  | _ => none

/-! ## File-system trace of `SprintsYaml::save` (sprints.rs lines 22-26)

`save` serializes and calls `fs::write(path, content)` directly; no temporary
file and no rename appear in its body. The sequence of file-system operations
the function issues is made explicit so atomicity claims can be stated. -/

/-- A file-system operation issued by the store. -/
inductive FsOp where
  | write (path : String) (content : YamlValue)
  | rename (src : String) (dst : String)

/-- Whether an operation is a rename. -/
def FsOp.isRename : FsOp → Bool
  | FsOp.rename _ _ => true
  | _ => false

/-- Mirrors `SprintsYaml::save`: one direct write of the serialized document
to the target path. -/
def save_ops (doc : SprintsYaml) (path : String) : List FsOp :=
  [FsOp.write path (encDoc doc)]

/-- The shape of an atomic write-to-temp-then-rename sequence targeting
`path`, as the spec describes `save`. -/
def atomicShape (ops : List FsOp) (path : String) : Prop :=
  ∃ tmp content, tmp ≠ path ∧
    ops = [FsOp.write tmp content, FsOp.rename tmp path]

/-! ## The `start` command's save callback (start.rs lines 656-678)

The closure handed to `Orchestrator::with_save_callback` in sequential mode:
re-load the file, replace the sprint with a matching id, stamp the project,
save. A load failure is logged and swallowed (`Ok(())`); an error of the
inner `save` propagates out of the closure through `?`. -/

/-- Replace the first sprint whose id matches (Rust
`iter_mut().find(...)` then assignment); `none` when no sprint matches. -/
def updateSprintIn : List Sprint → Sprint → Option (List Sprint)
  | [], _ => none
  | s :: rest, upd =>
    if s.id = upd.id then
      some (upd :: rest)
    else
      (updateSprintIn rest upd).map (fun l => s :: l)

/-- Mirrors the save-callback closure. `loadRes` is the outcome of
`SprintsYaml::load`, `saveDoc` the effect of `SprintsYaml::save` on the
re-loaded document, `nowTs` the value of `chrono::Utc::now()`. -/
def start_save_callback (loadRes : Except AFError SprintsYaml)
    (saveDoc : SprintsYaml → Except AFError Unit) (nowTs : TimeStamp)
    (updated : Sprint) : Except AFError Unit :=
  match loadRes with
  | Except.ok data =>
    (match updateSprintIn data.sprints updated with
     | some sprints1 =>
       saveDoc { data with
                 sprints := sprints1
                 project := { data.project with last_updated := nowTs } }
     | none => Except.ok ())
  | Except.error _ => Except.ok ()

/-! ## Shared concrete values for witnesses and counterexamples -/

/-- A well-formed sprint record with neutral fields, specialized below. -/
def exampleSprint : Sprint :=
  { id := 1, goal := "Implement the widget", status := SprintStatus.pending,
    workflow_type := WorkflowType.implementation, duration := none,
    total_effort := "8h", max_effort := "16h", started := some "2026-01-01T00:00:00Z",
    last_updated := "2026-01-01T00:00:00Z", completed_at := none,
    deliverables := ["widget"], tasks := [], dependencies := [],
    integration_points := none, blocked_count := none,
    must_complete_first := false, uses_blocker_resolver := false }

/-- A small well-formed document. -/
def exampleDoc : SprintsYaml :=
  { project := { name := "demo", version := "0.1.0",
                 description := "AutoFlow Project", total_sprints := 1,
                 current_sprint := none,
                 last_updated := "2026-01-01T00:00:00Z" },
    sprints := [exampleSprint] }

/-! ## C1: result-marker parsing -/

/-- C1 counterexample: in an output where `TEST_RESULT: FAILED` occurs before
`TEST_RESULT: PASSED` (here the output begins with the FAILED marker), the
claim says `parse_test_results` returns false, but the code checks for the
PASSED marker first, anywhere in the string, and returns true. -/
theorem parse_first_marker_cex :
    subAt "TEST_RESULT: FAILED".data
      "TEST_RESULT: FAILED\nTEST_RESULT: PASSED".data = true ∧
    parse_test_results "TEST_RESULT: FAILED\nTEST_RESULT: PASSED" = true := by
  decide

/-- C1 amended: the PASSED marker wins wherever it occurs, not the first
marker: `parse_test_results` returns true when `TEST_RESULT: PASSED` occurs
anywhere, false when it does not occur but `TEST_RESULT: FAILED` does, and
true when no marker occurs; `parse_review_results` behaves the same way for
the `REVIEW_STATUS:` markers. -/
theorem parse_results_passed_anywhere_wins (out : String) :
    (strContains out "TEST_RESULT: PASSED" = true →
      parse_test_results out = true) ∧
    (strContains out "TEST_RESULT: PASSED" = false →
      strContains out "TEST_RESULT: FAILED" = true →
      parse_test_results out = false) ∧
    (strContains out "TEST_RESULT: PASSED" = false →
      strContains out "TEST_RESULT: FAILED" = false →
      parse_test_results out = true) ∧
    (strContains out "REVIEW_STATUS: PASSED" = true →
      parse_review_results out = true) ∧
    (strContains out "REVIEW_STATUS: PASSED" = false →
      strContains out "REVIEW_STATUS: FAILED" = true →
      parse_review_results out = false) ∧
    (strContains out "REVIEW_STATUS: PASSED" = false →
      strContains out "REVIEW_STATUS: FAILED" = false →
      parse_review_results out = true) := by
  refine ⟨?_, ?_, ?_, ?_, ?_, ?_⟩ <;>
    (intro h1; first
      | (intro h2; simp [parse_test_results, parse_review_results, h1, h2])
      | simp [parse_test_results, parse_review_results, h1])

/-- C1 witness: the amended theorem applied at concrete outputs covering all
three test-marker situations. -/
theorem parse_results_passed_anywhere_wins_witness :
    parse_test_results "all good\nTEST_RESULT: PASSED" = true ∧
    parse_test_results "oops\nTEST_RESULT: FAILED" = false ∧
    parse_test_results "no marker at all" = true :=
  ⟨(parse_results_passed_anywhere_wins "all good\nTEST_RESULT: PASSED").1
      (by decide),
   (parse_results_passed_anywhere_wins "oops\nTEST_RESULT: FAILED").2.1
      (by decide) (by decide),
   (parse_results_passed_anywhere_wins "no marker at all").2.2.1
      (by decide) (by decide)⟩

/-! ## C2: unit-test retry exhaustion trajectory -/

/-- The C2 scenario: the unit-test-runner completes successfully but emits
the FAILED marker on every run, every unit-fixer invocation succeeds, and any
other agent (in particular the blocker-resolver) cannot be executed. -/
def envC2 : OrchestratorEnv :=
  { max_iterations := 50
    agents := fun _ name =>
      if name = "unit-test-runner" then
        Except.ok ⟨true, "TEST_RESULT: FAILED", none⟩
      else if name = "unit-fixer" then
        Except.ok ⟨true, "Applied a fix to the failing tests", none⟩
      else
        Except.error "claude binary unavailable"
    clock := fun _ => "2026-01-01T01:00:00Z"
    saveFn := none }

/-- The C2 starting sprint: at RUN_UNIT_TESTS in the implementation workflow,
whose RUN_UNIT_TESTS phase carries max_retries = 3. -/
def sprintC2 : Sprint := { exampleSprint with status := SprintStatus.runUnitTests }

/-- C2 counterexample: under exactly the claimed scenario the status
trajectory is not the claimed eight-step
RUN_UNIT_TESTS → UNIT_FIX → … → UNIT_FIX → RUN_UNIT_TESTS → BLOCKED:
the loop compares the incremented per-status counter with `>= max_retries`,
so the third FAILED run (count 3 ≥ 3) already blocks the sprint and a fourth
test run never happens. -/
theorem sprint_retry_trajectory_cex :
    (runSprint envC2 sprintC2).trace ≠
      [SprintStatus.runUnitTests, SprintStatus.unitFix,
       SprintStatus.runUnitTests, SprintStatus.unitFix,
       SprintStatus.runUnitTests, SprintStatus.unitFix,
       SprintStatus.runUnitTests, SprintStatus.blocked] := by
  decide

/-- C2 amended: with max_retries = 3 on RUN_UNIT_TESTS, three consecutive
FAILED runs (with two intervening successful UNIT_FIX visits) block the
sprint: the trajectory is RUN_UNIT_TESTS → UNIT_FIX → RUN_UNIT_TESTS →
UNIT_FIX → RUN_UNIT_TESTS → BLOCKED, and the final `blocked_count` is 3. -/
theorem sprint_retry_trajectory :
    (runSprint envC2 sprintC2).trace =
      [SprintStatus.runUnitTests, SprintStatus.unitFix,
       SprintStatus.runUnitTests, SprintStatus.unitFix,
       SprintStatus.runUnitTests, SprintStatus.blocked] ∧
    (runSprint envC2 sprintC2).sprint.blocked_count = some 3 ∧
    (runSprint envC2 sprintC2).sprint.status = SprintStatus.blocked := by
  refine ⟨by decide, by decide, by decide⟩

/-! ## C6: SprintsYaml::save is a direct write -/

/-- C6 counterexample: `save` issues no write-to-temp-plus-rename sequence;
its file-system trace on a concrete document is a single direct write to the
target path, so the claimed atomic-write shape does not hold. -/
theorem save_not_atomic_cex :
    ¬ atomicShape (save_ops exampleDoc "SPRINTS.yml") "SPRINTS.yml" := by
  rintro ⟨tmp, content, -, h⟩
  simp [save_ops] at h

/-- The sprints sequence of a serialized document. -/
def sprintsSeqOf : YamlValue → Option (List YamlValue)
  | YamlValue.map m =>
    (match lookupKey "sprints" m with
     | some (YamlValue.seq xs) => some xs
     | _ => none)
  | _ => none

/-- C6 amended: `save` serializes the document and performs exactly one
direct `fs::write` to the target path (no temporary file, no rename, hence no
atomicity against a failure mid-write), and the serialized sprints sequence
lists the document's sprints in their original order. -/
theorem save_direct_write_preserves_order (doc : SprintsYaml) (path : String) :
    save_ops doc path = [FsOp.write path (encDoc doc)] ∧
    sprintsSeqOf (encDoc doc) = some (doc.sprints.map encSprint) := by
  exact ⟨rfl, rfl⟩

/-! ## C9: max_turns is ignored by execute_agent -/

/-- C9 counterexample: the claim says the `max_turns` argument influences the
constructed subprocess invocation; for a concrete agent definition the
argument list is identical for max_turns 5 and max_turns 999999 (the Rust
parameter is spelled `_max_turns` and never read). -/
theorem max_turns_ignored_cex :
    agent_cmd_args ⟨"claude-sonnet-4-5-20250929", ["Bash", "Edit"]⟩ false 5 =
    agent_cmd_args ⟨"claude-sonnet-4-5-20250929", ["Bash", "Edit"]⟩ false 999999 := by
  rfl

/-- C9 amended: `execute_agent` accepts `max_turns` but ignores it: the
subprocess invocation it constructs is independent of the value. -/
theorem agent_cmd_args_independent_of_max_turns
    (ad : AgentDefM) (live : Bool) (m1 m2 : Nat) :
    agent_cmd_args ad live m1 = agent_cmd_args ad live m2 := by
  rfl

/-! ## Helper lemmas about the sprint loop -/

/-- The persistence step hands back the sprint unchanged, whether it
continues or aborts. -/
theorem saveStep_sprint (env : OrchestratorEnv) (s : Sprint) (rc : RetryCounts) :
    (saveStep env s rc).sprint = s := by
  unfold saveStep
  split
  · rfl
  · split <;> rfl

/-- The BLOCKED branch with a successful blocker-resolver run: the sprint
leaves the iteration with the resolver flag raised, status reset to
RUN_UNIT_TESTS and the blocked counter cleared, whatever else happens. -/
theorem runIter_blocked_resolver_ok (env : OrchestratorEnv) (iter : Nat)
    (sprint : Sprint) (rc : RetryCounts) (res : AgentRes)
    (hst : sprint.status = SprintStatus.blocked)
    (ha : env.agents iter "blocker-resolver" = Except.ok res)
    (hs : res.success = true) :
    (runIter env iter sprint rc).sprint =
      { sprint with
        uses_blocker_resolver := true
        status := SprintStatus.runUnitTests
        blocked_count := some 0
        last_updated := env.clock iter } := by
  simp [runIter, hst, run_blocker_resolver, ha, hs, saveStep_sprint]

/-- A retry decision (`Ok(false)`) on a sprint that has been through the
blocker-resolver sends it to BLOCKED, recording the incremented counter. -/
theorem runIter_retry_uses_resolver (env : OrchestratorEnv) (iter : Nat)
    (sprint : Sprint) (rc : RetryCounts)
    (hst : sprint.status ≠ SprintStatus.blocked)
    (hu : sprint.uses_blocker_resolver = true)
    (hexec : execute_phase env iter sprint = Except.ok false) :
    (runIter env iter sprint rc).sprint.status = SprintStatus.blocked ∧
    (runIter env iter sprint rc).sprint.blocked_count =
      some (rc sprint.status + 1) := by
  simp only [runIter, if_neg hst, hexec]
  by_cases hge : rc sprint.status + 1 ≥
      (((get_workflow_definition sprint.workflow_type).get_phase
        sprint.status).map (fun p => p.max_retries)).getD 1
  · simp [hge, saveStep_sprint]
  · simp [hge, hu, saveStep_sprint]

/-! ## C3: blocker-resolver recovery and retry policy -/

/-- C3: (1) when the sprint loop finds a sprint BLOCKED and the
blocker-resolver invocation succeeds, the iteration leaves the sprint with
`uses_blocker_resolver = true`, status RUN_UNIT_TESTS and `blocked_count`
reset to 0; (2) thereafter, a phase-retry decision (a failing validation)
on a sprint with `uses_blocker_resolver = true` whose incremented retry
counter is still below the phase's max_retries moves the status to BLOCKED
rather than to the phase's fix phase. -/
theorem blocker_resolver_recovery_policy :
    (∀ (env : OrchestratorEnv) (iter : Nat) (sprint : Sprint)
       (rc : RetryCounts) (res : AgentRes),
       sprint.status = SprintStatus.blocked →
       env.agents iter "blocker-resolver" = Except.ok res →
       res.success = true →
       (runIter env iter sprint rc).sprint.uses_blocker_resolver = true ∧
       (runIter env iter sprint rc).sprint.status = SprintStatus.runUnitTests ∧
       (runIter env iter sprint rc).sprint.blocked_count = some 0) ∧
    (∀ (env : OrchestratorEnv) (iter : Nat) (sprint : Sprint)
       (rc : RetryCounts),
       sprint.status ≠ SprintStatus.blocked →
       sprint.uses_blocker_resolver = true →
       execute_phase env iter sprint = Except.ok false →
       rc sprint.status + 1 <
         (((get_workflow_definition sprint.workflow_type).get_phase
           sprint.status).map (fun p => p.max_retries)).getD 1 →
       (runIter env iter sprint rc).sprint.status = SprintStatus.blocked) := by
  constructor
  · intro env iter sprint rc res hst ha hs
    rw [runIter_blocked_resolver_ok env iter sprint rc res hst ha hs]
    exact ⟨rfl, rfl, rfl⟩
  · intro env iter sprint rc hst hu hexec _
    exact (runIter_retry_uses_resolver env iter sprint rc hst hu hexec).1

/-- An environment whose blocker-resolver succeeds and whose
unit-test-runner reports a failure. -/
def envResolverOk : OrchestratorEnv :=
  { max_iterations := 50
    agents := fun _ name =>
      if name = "blocker-resolver" then
        Except.ok ⟨true, "Root cause: missing database migration", none⟩
      else if name = "unit-test-runner" then
        Except.ok ⟨true, "TEST_RESULT: FAILED", none⟩
      else
        Except.ok ⟨true, "done", none⟩
    clock := fun _ => "2026-01-01T02:00:00Z"
    saveFn := none }

/-- C3 witness: the policy applied to a concrete blocked sprint and to a
concrete post-resolver validation failure. -/
theorem blocker_resolver_recovery_policy_witness :
    ((runIter envResolverOk 1 { exampleSprint with status := SprintStatus.blocked }
        (fun _ => 0)).sprint.uses_blocker_resolver = true ∧
     (runIter envResolverOk 1 { exampleSprint with status := SprintStatus.blocked }
        (fun _ => 0)).sprint.status = SprintStatus.runUnitTests ∧
     (runIter envResolverOk 1 { exampleSprint with status := SprintStatus.blocked }
        (fun _ => 0)).sprint.blocked_count = some 0) ∧
    (runIter envResolverOk 2
      { exampleSprint with status := SprintStatus.runUnitTests,
                           uses_blocker_resolver := true }
      (fun _ => 0)).sprint.status = SprintStatus.blocked :=
  ⟨blocker_resolver_recovery_policy.1 envResolverOk 1
      { exampleSprint with status := SprintStatus.blocked } (fun _ => 0)
      ⟨true, "Root cause: missing database migration", none⟩ rfl rfl rfl,
   blocker_resolver_recovery_policy.2 envResolverOk 2
      { exampleSprint with status := SprintStatus.runUnitTests,
                           uses_blocker_resolver := true } (fun _ => 0)
      (by decide) rfl rfl (by decide)⟩

/-! ## C10: the recovery reset ignores the workflow type -/

/-- C10: (1) the documentation workflow has no RUN_UNIT_TESTS phase; (2) a
successful blocker-resolver run resets any blocked sprint to RUN_UNIT_TESTS
regardless of its workflow type, which is left unchanged; (3) executing a
phase of a documentation-workflow sprint at RUN_UNIT_TESTS therefore fails
with the no-phase-definition validation error. -/
theorem blocker_reset_ignores_workflow :
    ((get_workflow_definition WorkflowType.documentation).get_phase
      SprintStatus.runUnitTests = none) ∧
    (∀ (env : OrchestratorEnv) (iter : Nat) (sprint : Sprint)
       (rc : RetryCounts) (res : AgentRes),
       sprint.status = SprintStatus.blocked →
       env.agents iter "blocker-resolver" = Except.ok res →
       res.success = true →
       (runIter env iter sprint rc).sprint.status = SprintStatus.runUnitTests ∧
       (runIter env iter sprint rc).sprint.workflow_type = sprint.workflow_type) ∧
    (∀ (env : OrchestratorEnv) (iter : Nat) (sprint : Sprint),
       sprint.workflow_type = WorkflowType.documentation →
       sprint.status = SprintStatus.runUnitTests →
       execute_phase env iter sprint = Except.error (AFError.validationError
         "No phase definition for status RunUnitTests in workflow Documentation")) := by
  refine ⟨by decide, ?_, ?_⟩
  · intro env iter sprint rc res hst ha hs
    rw [runIter_blocked_resolver_ok env iter sprint rc res hst ha hs]
    exact ⟨rfl, rfl⟩
  · intro env iter sprint hwf hst
    unfold execute_phase
    rw [hwf, hst]
    rfl

/-- C10 witness: a blocked documentation sprint is reset to RUN_UNIT_TESTS
by a successful resolver run, and the phase execution at that status fails
with the validation error. -/
theorem blocker_reset_ignores_workflow_witness :
    (runIter envResolverOk 1
      { exampleSprint with status := SprintStatus.blocked,
                           workflow_type := WorkflowType.documentation }
      (fun _ => 0)).sprint.status = SprintStatus.runUnitTests ∧
    execute_phase envResolverOk 2
      { exampleSprint with status := SprintStatus.runUnitTests,
                           workflow_type := WorkflowType.documentation } =
      Except.error (AFError.validationError
        "No phase definition for status RunUnitTests in workflow Documentation") :=
  ⟨(blocker_reset_ignores_workflow.2.1 envResolverOk 1
      { exampleSprint with status := SprintStatus.blocked,
                           workflow_type := WorkflowType.documentation }
      (fun _ => 0)
      ⟨true, "Root cause: missing database migration", none⟩ rfl rfl rfl).1,
   blocker_reset_ignores_workflow.2.2 envResolverOk 2
      { exampleSprint with status := SprintStatus.runUnitTests,
                           workflow_type := WorkflowType.documentation }
      rfl rfl⟩

/-! ## C8: persistence failures and the sprint loop -/

/-- With a callback that fails, the persistence step aborts the iteration. -/
theorem saveStep_halt (env : OrchestratorEnv) (f : Sprint → Except AFError Unit)
    (e : AFError) (hsf : env.saveFn = some f)
    (hf : ∀ s, f s = Except.error e) (s : Sprint) (rc : RetryCounts) :
    saveStep env s rc = IterOut.halt e s := by
  unfold saveStep
  simp [hsf, hf]

/-- Every path through one loop iteration ends in an abort when the save
callback always fails: the end-of-iteration `save_fn(sprint)?` (or the
resolver outcome) stops the loop. -/
theorem runIter_halt_on_save_error (env : OrchestratorEnv) (iter : Nat)
    (sprint : Sprint) (rc : RetryCounts) (f : Sprint → Except AFError Unit)
    (e : AFError) (hsf : env.saveFn = some f)
    (hf : ∀ s, f s = Except.error e) :
    ∃ e1 s1, runIter env iter sprint rc = IterOut.halt e1 s1 := by
  unfold runIter
  by_cases hb : sprint.status = SprintStatus.blocked
  · simp only [if_pos hb]
    cases hr : run_blocker_resolver env iter with
    | ok a => exact ⟨e, _, saveStep_halt env f e hsf hf _ _⟩
    | error e2 => cases e2 <;> exact ⟨_, _, rfl⟩
  · simp only [if_neg hb]
    cases hx : execute_phase env iter sprint with
    | ok b =>
      cases b
      · exact ⟨e, _, saveStep_halt env f e hsf hf _ _⟩
      · exact ⟨e, _, saveStep_halt env f e hsf hf _ _⟩
    | error e2 => exact ⟨e, _, saveStep_halt env f e hsf hf _ _⟩

/-- C8: the claim that a failing save callback never aborts the sprint run
splits on where the failure happens. (1) A failure to re-load the sprints
file inside the shipped callback is swallowed: the callback returns Ok.
(2) But an error returned by the callback itself propagates out of
`run_sprint` through the `?` operator and aborts the run: with an
always-failing callback, a not-yet-done sprint's run ends in an error. -/
theorem save_callback_error_handling :
    (∀ (saveDoc : SprintsYaml → Except AFError Unit) (nowTs : TimeStamp)
       (upd : Sprint) (e : AFError),
       start_save_callback (Except.error e) saveDoc nowTs upd = Except.ok ()) ∧
    (∀ (env : OrchestratorEnv) (sprint : Sprint)
       (f : Sprint → Except AFError Unit) (e : AFError),
       env.saveFn = some f → (∀ s, f s = Except.error e) →
       sprint.is_done = false → 0 < env.max_iterations →
       ∃ e1, (runSprint env sprint).result = Except.error e1) := by
  constructor
  · intro saveDoc nowTs upd e
    rfl
  · intro env sprint f e hsf hf hnd hmax
    obtain ⟨n, hn⟩ : ∃ n, env.max_iterations = n + 1 :=
      ⟨env.max_iterations - 1, by omega⟩
    unfold runSprint
    rw [hn]
    set s0 : Sprint :=
      (if sprint.started = none then
        { sprint with started := some (env.clock 0) } else sprint) with hs0
    have hnd0 : s0.is_done = false := by
      rw [hs0]; split
      · exact hnd
      · exact hnd
    obtain ⟨e1, s1, hiter⟩ :=
      runIter_halt_on_save_error env 1 s0 (fun _ => 0) f e hsf hf
    refine ⟨e1, ?_⟩
    unfold runAux
    simp [hnd0, hiter]

/-- The C8 counterexample environment: every agent succeeds with a passing
marker, the save callback always reports a disk failure. -/
def envSaveFail : OrchestratorEnv :=
  { max_iterations := 50
    agents := fun _ _ => Except.ok ⟨true, "TEST_RESULT: PASSED", none⟩
    clock := fun _ => "2026-01-01T03:00:00Z"
    saveFn := some (fun _ => Except.error (AFError.persistenceFailed "disk full")) }

/-- The same environment with a callback that succeeds. -/
def envSaveOk : OrchestratorEnv :=
  { envSaveFail with saveFn := some (fun _ => Except.ok ()) }

/-- C8 counterexample: on a sprint whose phases all succeed, `run_sprint`
completes when the callback succeeds, but aborts at the first iteration's
`save_fn(sprint)?` when the callback returns an error — the persistence
failure does abort the sprint run. -/
theorem save_callback_error_aborts_cex :
    (runSprint envSaveFail exampleSprint).result =
      Except.error (AFError.persistenceFailed "disk full") ∧
    (runSprint envSaveFail exampleSprint).sprint.status =
      SprintStatus.writeUnitTests ∧
    (runSprint envSaveOk exampleSprint).result = Except.ok () ∧
    (runSprint envSaveOk exampleSprint).sprint.status = SprintStatus.done := by
  refine ⟨rfl, by decide, rfl, by decide⟩

/-- C8 witness: the two halves of the handling theorem at concrete inputs. -/
theorem save_callback_error_handling_witness :
    start_save_callback (Except.error (AFError.persistenceFailed "io"))
      (fun _ => Except.ok ()) "2026-01-01T04:00:00Z" exampleSprint =
      Except.ok () ∧
    ∃ e1, (runSprint envSaveFail exampleSprint).result = Except.error e1 :=
  ⟨save_callback_error_handling.1 (fun _ => Except.ok ())
      "2026-01-01T04:00:00Z" exampleSprint (AFError.persistenceFailed "io"),
   save_callback_error_handling.2 envSaveFail exampleSprint
      (fun _ => Except.error (AFError.persistenceFailed "disk full"))
      (AFError.persistenceFailed "disk full") rfl (fun _ => rfl)
      (by decide) (by decide)⟩

/-! ## Helper lemmas about the scheduler filters -/

/-- An index selected by an enumerate-filter-map pipeline points at a sprint
satisfying the filter. -/
theorem mem_filter_enum (l : List Sprint) (p : Nat × Sprint → Bool) (j : Nat)
    (hj : j ∈ (l.enum.filter p).map (fun q => q.1)) :
    ∃ s, l[j]? = some s ∧ p (j, s) = true := by
  obtain ⟨q, hq, hq1⟩ := List.mem_map.mp hj
  obtain ⟨hqe, hqp⟩ := List.mem_filter.mp hq
  obtain ⟨i, s⟩ := q
  cases hq1
  exact ⟨s, List.mk_mem_enum_iff_getElem?.mp hqe, hqp⟩

/-- A passing dependency check means every dependency id that resolves to an
existing sprint resolves to a DONE one. -/
theorem deps_ok_spec (l : List Sprint) (s : Sprint) (h : deps_ok l s = true) :
    ∀ dep ∈ s.dependencies, ∀ d,
      l.find? (fun o => toString o.id == dep) = some d →
      d.status = SprintStatus.done := by
  unfold deps_ok at h
  rw [List.all_eq_true] at h
  intro dep hdep d hd
  have h1 := h dep hdep
  rw [hd] at h1
  simpa using h1

/-! ## C4: the must_complete_first gate -/

/-- Sprints for the scheduler counterexamples and witnesses. -/
def sprintCritical : Sprint := { exampleSprint with must_complete_first := true }

/-- A second, non-critical pending sprint. -/
def sprintOther : Sprint := { exampleSprint with id := 2 }

/-- C4 counterexample: with a critical sprint (index 0, PENDING, so not
DONE) and a plain pending sprint (index 1), the initial selection pass
returns both indices — its filter checks only status and dependencies, so
the runnable set is not a subset of the critical sprint alone. -/
theorem critical_gate_initial_cex :
    initial_selection [sprintCritical, sprintOther] = [0, 1] ∧
    sprintCritical.must_complete_first = true ∧
    sprintCritical.status ≠ SprintStatus.done ∧
    sprintOther.must_complete_first = false := by
  refine ⟨by decide, by decide, by decide, by decide⟩

/-- C4 amended: only the continuous-mode re-evaluation applies the critical
gate. (1) While any sprint with `must_complete_first = true` is not DONE,
every index in the continuous-mode runnable set points at a critical sprint;
(2) hence when the critical sprint is unique, the runnable set is a subset
of its index. The initial selection pass does not apply the gate (it only
orders critical sprints first). -/
theorem critical_gate_continuous :
    (∀ (l : List Sprint) (c : Sprint), c ∈ l →
       c.must_complete_first = true → c.status ≠ SprintStatus.done →
       ∀ j ∈ continuous_runnable l,
         ∃ s, l[j]? = some s ∧ s.must_complete_first = true) ∧
    (∀ (l : List Sprint) (i : Nat) (c : Sprint), l[i]? = some c →
       c.must_complete_first = true → c.status ≠ SprintStatus.done →
       (∀ (k : Nat) (s : Sprint), l[k]? = some s →
         s.must_complete_first = true → k = i) →
       ∀ j ∈ continuous_runnable l, j = i) := by
  have gate : ∀ (l : List Sprint) (c : Sprint), c ∈ l →
      c.must_complete_first = true → c.status ≠ SprintStatus.done →
      ∀ j ∈ continuous_runnable l,
        ∃ s, l[j]? = some s ∧ s.must_complete_first = true := by
    intro l c hc hcrit hnd j hj
    have hic : has_incomplete_critical l = true := by
      unfold has_incomplete_critical
      rw [List.any_eq_true]
      refine ⟨c, hc, ?_⟩
      simp [hcrit, hnd]
    obtain ⟨s, hs, hp⟩ := mem_filter_enum l _ j hj
    refine ⟨s, hs, ?_⟩
    simp [hic] at hp
    exact hp.1.2
  constructor
  · exact gate
  · intro l i c hi hcrit hnd huniq j hj
    obtain ⟨s, hs, hsc⟩ :=
      gate l c (List.getElem?_mem hi) hcrit hnd j hj
    exact huniq j s hs hsc

/-- C4 witness: the gate applied to the concrete two-sprint backlog; the
runnable set there is exactly the critical index. -/
theorem critical_gate_continuous_witness :
    continuous_runnable [sprintCritical, sprintOther] = [0] ∧
    (∀ j ∈ continuous_runnable [sprintCritical, sprintOther], j = 0) :=
  ⟨by decide,
   critical_gate_continuous.2 [sprintCritical, sprintOther] 0 sprintCritical
     (by decide) (by decide) (by decide)
     (fun k s hk hs => by
       match k with
       | 0 => rfl
       | 1 =>
         have h2 : ([sprintCritical, sprintOther][1]?) = some sprintOther := rfl
         rw [h2] at hk
         rw [← Option.some.inj hk] at hs
         exact absurd hs (by decide)
       | k + 2 =>
         have h2 : ([sprintCritical, sprintOther][k + 2]?) = none := rfl
         rw [h2] at hk
         cases hk)⟩

/-! ## C5: the dependency gate -/

/-- A pending sprint with id 1 and a blocked critical sprint depending on it. -/
def sprintDepBase : Sprint := exampleSprint

/-- The blocked critical sprint whose dependency "1" is not DONE. -/
def sprintDepBlocked : Sprint :=
  { exampleSprint with id := 2, must_complete_first := true,
                       status := SprintStatus.blocked, dependencies := ["1"] }

/-- C5 counterexample: the blocked-critical preemption path of the initial
pass selects the blocked critical sprint without any dependency check, even
though its dependency list names the existing sprint 1, whose status is
PENDING, not DONE. -/
theorem dependency_gate_preemption_cex :
    initial_selection [sprintDepBase, sprintDepBlocked] = [1] ∧
    sprintDepBlocked.dependencies = ["1"] ∧
    List.find? (fun o => toString o.id == "1") [sprintDepBase, sprintDepBlocked] =
      some sprintDepBase ∧
    sprintDepBase.status ≠ SprintStatus.done := by
  refine ⟨by decide, by decide, by decide, by decide⟩

/-- C5 amended: both dependency filters behave as claimed — (1) the initial
runnable filter and (2) the continuous-mode filter never pass a sprint one
of whose dependency ids resolves to an existing sprint that is not DONE, and
(3) dependency ids resolving to no sprint never fail the check — but the
blocked-critical preemption path (and an explicit `--sprint` selection)
bypasses the dependency check entirely. -/
theorem dependency_gate_filters :
    (∀ (l : List Sprint) (j : Nat), j ∈ initial_runnable l →
       ∀ s, l[j]? = some s → ∀ dep ∈ s.dependencies, ∀ d,
         l.find? (fun o => toString o.id == dep) = some d →
         d.status = SprintStatus.done) ∧
    (∀ (l : List Sprint) (j : Nat), j ∈ continuous_runnable l →
       ∀ s, l[j]? = some s → ∀ dep ∈ s.dependencies, ∀ d,
         l.find? (fun o => toString o.id == dep) = some d →
         d.status = SprintStatus.done) ∧
    (∀ (l : List Sprint) (s : Sprint),
       (∀ dep ∈ s.dependencies,
         l.find? (fun o => toString o.id == dep) = none) →
       deps_ok l s = true) := by
  refine ⟨?_, ?_, ?_⟩
  · intro l j hj s hs
    obtain ⟨s0, hs0, hp⟩ := mem_filter_enum l _ j hj
    rw [hs0] at hs
    cases hs
    simp only [Bool.and_eq_true] at hp
    exact deps_ok_spec l s hp.2
  · intro l j hj s hs
    obtain ⟨s0, hs0, hp⟩ := mem_filter_enum l _ j hj
    rw [hs0] at hs
    cases hs
    simp only [Bool.and_eq_true] at hp
    exact deps_ok_spec l s hp.2
  · intro l s h
    unfold deps_ok
    rw [List.all_eq_true]
    intro dep hdep
    rw [h dep hdep]
    rfl

/-- C5 witness: the dependency gate at a concrete backlog — sprint 2 depends
on the non-DONE sprint 1 and is indeed absent from both filters — and an
unknown dependency id leaves the check satisfied. -/
theorem dependency_gate_filters_witness :
    (∀ dep ∈ sprintDepBlocked.dependencies, ∀ d,
      List.find? (fun o => toString o.id == dep)
        [sprintDepBase, { sprintDepBlocked with status := SprintStatus.pending }] =
          some d →
      d.status = SprintStatus.done) →
    (initial_runnable
      [sprintDepBase, { sprintDepBlocked with status := SprintStatus.pending }] = [0] ∧
     deps_ok [] { exampleSprint with dependencies := ["99"] } = true) :=
  fun _ =>
    ⟨by decide,
     dependency_gate_filters.2.2 [] { exampleSprint with dependencies := ["99"] }
       (fun dep _ => rfl)⟩

/-! ## C7: the save-then-load round trip -/

/-- Decoding an encoded string field. -/
theorem decStr_str (s : String) : decStr (YamlValue.str s) = some s := rfl

/-- Decoding an encoded optional string. -/
theorem decOpt_str (o : Option String) :
    decOpt decStr (encOpt YamlValue.str o) = some o := by cases o <;> rfl

/-- Decoding an encoded optional number. -/
theorem decOpt_nat (o : Option Nat) :
    decOpt decNat (encOpt YamlValue.nat o) = some o := by cases o <;> rfl

/-- Decoding an option placed on a mapping value. -/
theorem decOpt_of_map (f : YamlValue → Option α) (m : List (String × YamlValue))
    (a : α) (h : f (YamlValue.map m) = some a) :
    decOpt f (YamlValue.map m) = some (some a) := by
  simp [decOpt, h]

/-- Element-wise decoding of an encoded sequence, allowing the decoder to
normalize each element. -/
theorem decListAux_map_to (f : YamlValue → Option α) (g : β → YamlValue)
    (r : β → α) (h : ∀ x, f (g x) = some (r x)) (l : List β) :
    decListAux f (l.map g) = some (l.map r) := by
  induction l with
  | nil => rfl
  | cons x xs ih => simp [decListAux, h, ih]

/-- Element-wise decoding of an encoded sequence. -/
theorem decListAux_map (f : YamlValue → Option α) (g : α → YamlValue)
    (h : ∀ x, f (g x) = some x) (l : List α) :
    decListAux f (l.map g) = some l := by
  have h2 := decListAux_map_to f g id (fun x => h x) l
  simpa using h2

/-- Decoding an encoded string sequence. -/
theorem decList_map_str (l : List String) :
    decList decStr (YamlValue.seq (l.map YamlValue.str)) = some l := by
  simp [decList, decListAux_map decStr YamlValue.str (fun x => rfl)]

/-- Round trip for the `TestRequirement` codec. -/
theorem decTestRequirement_enc (t : TestRequirement) :
    decTestRequirement (encTestRequirement t) = some t := by
  simp [encTestRequirement, decTestRequirement, reqField, lookupKey, decBool,
        decStr]

/-- Round trip for optional test requirements. -/
theorem decOpt_tr (o : Option TestRequirement) :
    decOpt decTestRequirement (encOpt encTestRequirement o) = some o := by
  cases o with
  | none => rfl
  | some t => exact decOpt_of_map _ _ _ (decTestRequirement_enc t)

/-- Round trip for the `TestingRequirements` codec. -/
theorem decTesting_enc (t : TestingRequirements) :
    decTesting (encTesting t) = some t := by
  simp [encTesting, decTesting, optField, lookupKey, decOpt_tr]

/-- Round trip for the `Priority` codec. -/
theorem decPriority_enc (p : Priority) : decPriority (encPriority p) = some p := by
  cases p <;> rfl

/-- Round trip for the `TaskStatus` codec. -/
theorem decTaskStatus_enc (t : TaskStatus) :
    decTaskStatus (encTaskStatus t) = some t := by cases t <;> rfl

/-- Round trip for the `SprintStatus` codec. -/
theorem decStatus_enc (s : SprintStatus) : decStatus (encStatus s) = some s := by
  cases s <;> rfl

/-- Round trip for the `WorkflowType` codec. -/
theorem decWorkflowType_enc (w : WorkflowType) :
    decWorkflowType (encWorkflowType w) = some w := by cases w <;> rfl

/-- Round trip for the `IntegrationPoints` codec. -/
theorem decIntegrationPoints_enc (p : IntegrationPoints) :
    decIntegrationPoints (encIntegrationPoints p) = some p := by
  simp [encIntegrationPoints, decIntegrationPoints, dfltField, lookupKey,
        decList_map_str]

/-- Round trip for optional integration points. -/
theorem decOpt_ip (o : Option IntegrationPoints) :
    decOpt decIntegrationPoints (encOpt encIntegrationPoints o) = some o := by
  cases o with
  | none => rfl
  | some p => exact decOpt_of_map _ _ _ (decIntegrationPoints_enc p)

/-- Round trip for the `Task` codec. -/
theorem decTask_enc (t : AFTask) : decTask (encTask t) = some t := by
  simp [encTask, decTask, reqField, dfltField, optField, lookupKey,
        decStr, decOpt_str, decList_map_str, decPriority_enc,
        decTaskStatus_enc, decTesting_enc]

/-- Round trip for task sequences. -/
theorem decList_map_task (l : List AFTask) :
    decList decTask (YamlValue.seq (l.map encTask)) = some l := by
  simp [decList, decListAux_map decTask encTask decTask_enc]

/-- What decoding leaves of a sprint: everything persisted survives, the
runtime-only flag comes back at its default. -/
def resetSprint (s : Sprint) : Sprint := { s with uses_blocker_resolver := false }

/-- Round trip for the `Sprint` codec, modulo the runtime-only flag. -/
theorem decSprint_enc (s : Sprint) :
    decSprint (encSprint s) = some (resetSprint s) := by
  simp [encSprint, decSprint, reqField, dfltField, optField, lookupKey,
        decNat, decStr, decBool, decOpt_str, decOpt_nat, decOpt_ip,
        decList_map_str, decList_map_task, decStatus_enc, decWorkflowType_enc,
        resetSprint]

/-- Round trip for the `ProjectMetadata` codec. -/
theorem decProject_enc (p : ProjectMetadata) :
    decProject (encProject p) = some p := by
  simp [encProject, decProject, reqField, dfltField, optField, lookupKey,
        decNat, decStr, decOpt_nat]

/-- Round trip for the document codec, modulo the runtime-only flags. -/
theorem decDoc_enc (d : SprintsYaml) :
    decDoc (encDoc d) = some ⟨d.project, d.sprints.map resetSprint⟩ := by
  simp [encDoc, decDoc, reqField, lookupKey, decProject_enc, decList,
        decListAux_map_to decSprint encSprint resetSprint decSprint_enc]

/-- Any sprint produced by the decoder carries the default runtime flag. -/
theorem decSprint_flag (v : YamlValue) (s : Sprint) (h : decSprint v = some s) :
    s.uses_blocker_resolver = false := by
  cases v <;> simp [decSprint] at h
  case map m =>
    repeat' split at h
    all_goals cases h
    all_goals rfl

/-- Flag extraction lifted to decoded sequences. -/
theorem decListAux_sprints_flag (xs : List YamlValue) (l : List Sprint)
    (h : decListAux decSprint xs = some l) :
    ∀ s ∈ l, s.uses_blocker_resolver = false := by
  induction xs generalizing l with
  | nil =>
    cases h
    intro s hs
    exact absurd hs (List.not_mem_nil s)
  | cons x rest ih =>
    simp only [decListAux] at h
    split at h
    · exact absurd h (by simp)
    · rename_i a ha
      cases hrest : decListAux decSprint rest with
      | none => rw [hrest] at h; exact absurd h (by simp)
      | some l1 =>
        rw [hrest] at h
        simp at h
        intro s hs
        rw [← h] at hs
        rcases List.mem_cons.mp hs with h1 | h1
        · exact h1 ▸ decSprint_flag x a ha
        · exact ih l1 hrest s h1

/-- Every sprint of a successfully loaded document carries the default
runtime flag. -/
theorem decDoc_flags (v : YamlValue) (d : SprintsYaml) (h : decDoc v = some d) :
    ∀ s ∈ d.sprints, s.uses_blocker_resolver = false := by
  cases v <;> simp [decDoc] at h
  case map m =>
    split at h
    · exact absurd h (by simp)
    · rename_i p hp
      split at h
      · exact absurd h (by simp)
      · rename_i sp hsp
        simp at h
        intro s hs
        rw [← h] at hs
        simp at hs
        revert hsp
        cases hlk : lookupKey "sprints" m with
        | none => intro hsp; exact absurd hsp (by simp [reqField, hlk])
        | some w =>
          intro hsp
          simp [reqField, hlk] at hsp
          cases w <;> simp [decList] at hsp
          case seq xs => exact decListAux_sprints_flag xs sp hsp s hs

/-- Resetting the flag of a sprint that already carries the default is the
identity. -/
theorem resetSprint_id (s : Sprint) (h : s.uses_blocker_resolver = false) :
    resetSprint s = s := by
  cases s
  simp_all [resetSprint]

/-- C7: for every document obtained from a successful load, saving and
re-loading yields the same document — the round trip is the identity at the
YAML-value level (whitespace lives below this model; serde default-field
injection happens inside decoding). -/
theorem load_save_roundtrip (v : YamlValue) (d : SprintsYaml)
    (h : decDoc v = some d) : decDoc (encDoc d) = some d := by
  rw [decDoc_enc d]
  have hf := decDoc_flags v d h
  have hmap : d.sprints.map resetSprint = d.sprints := by
    calc d.sprints.map resetSprint = d.sprints.map id :=
          List.map_congr_left (fun s hs => resetSprint_id s (hf s hs))
      _ = d.sprints := List.map_id d.sprints
  rw [hmap]

/-- C7 witness: the round trip applied to a concrete loaded document. -/
theorem load_save_roundtrip_witness :
    decDoc (encDoc exampleDoc) = some exampleDoc :=
  load_save_roundtrip (encDoc exampleDoc) exampleDoc (by decide)
